import Mathlib

/-!
Shallow embedding of `src/server.js` (a socket.io bingo session server).

The server keeps a process-wide registry `rooms` mapping room ids to room
state, plus per-connection data (`socket.data`).  We model the registry and
the per-socket data as insertion-ordered association lists (JS objects
preserve string-key insertion order), connections by their socket-id string,
and randomness (`Math.random`) as oracle arguments to the operations that
consume it.  Every event handler becomes a function from the server state and
the caller's socket id to a new state, a callback reply, and a list of
emitted events.
-/

set_option autoImplicit false

namespace Bingo

/-- JS values that can arrive in an event payload where the server applies
the `Number(...)` coercion.  A `jnum none` is a non-finite JS number
(`NaN` or `±Infinity`); the server only ever distinguishes numbers by
`Number.isFinite`, and the spec restricts attention to integers, so finite
numbers are carried as `Int`. -/
inductive JsValue where
  | jnum (n : Option Int)
  | jstr (s : String)
  | jbool (b : Bool)
  | jnull
  | jundefined
deriving DecidableEq

/-- JS `String.prototype.trim()`: strips leading and trailing whitespace.
Implemented directly on the character list so that proofs can evaluate it
on concrete strings. -/
def jsTrim (s : String) : String :=
  ⟨(((s.data.dropWhile Char.isWhitespace).reverse.dropWhile Char.isWhitespace).reverse)⟩

/-- Reads an unsigned decimal numeral; `none` on the empty list or any
non-digit character (JS yields `NaN` there). -/
def readDigits : List Char → Nat → Option Nat
  | [], acc => some acc
  | c :: cs, acc =>
    if c.isDigit then readDigits cs (acc * 10 + (c.toNat - 48)) else none

/-- JS `Number(string)`: trims whitespace, the empty string is `0`, an
optionally signed decimal integer numeral is its value, anything else is
`NaN` (`none`).  This models the integer fragment of the JS grammar, which
is all the bingo protocol uses. -/
def strToNumber (s : String) : Option Int :=
  let t := jsTrim s
  if t = "" then some 0
  else
    match t.data with
    | '-' :: cs =>
      match cs with
      | [] => none
      | _ => (readDigits cs 0).map (fun n => -(n : Int))
    | '+' :: cs =>
      match cs with
      | [] => none
      | _ => (readDigits cs 0).map (fun n => (n : Int))
    | cs => (readDigits cs 0).map (fun n => (n : Int))

/-- JS `Number(v)` followed by the server's `Number.isFinite` test:
`some n` when the coercion produces the finite number `n`, `none` when it
produces `NaN` or an infinity.  `Number(true) = 1`, `Number(false) = 0`,
`Number(null) = 0`, `Number(undefined) = NaN`. -/
def toNumber : JsValue → Option Int
  | .jnum n => n
  | .jstr s => strToNumber s
  | .jbool b => some (if b then 1 else 0)
  | .jnull => some 0
  | .jundefined => none

/-- A card layout payload (`cardNumbers`); the server stores it opaquely. -/
abbrev Card := List Int

/-- The `rooms[roomId].players[secretKey]` record (server.js lines 21-23,
140-148).  `socketId = none` models the `null` written on disconnect. -/
structure Player where
  name : String
  secretKey : String
  socketId : Option String
  cardNumbers : Option Card
deriving DecidableEq

/-- One entry of the `rooms` registry (server.js lines 14-25).  `players`
is an insertion-ordered association list keyed by secret key. -/
structure Room where
  roomId : String
  hostSocketId : Option String
  minNumber : Int
  maxNumber : Int
  drawnNumbers : List Int
  players : List (String × Player)
deriving DecidableEq

/-- The `socket.data.role` strings `"host"` / `"player"`. -/
inductive Role where
  | host
  | player
deriving DecidableEq

/-- Per-connection `socket.data` as written by the handlers (`role`, `roomId`,
`secretKey`); every field starts out absent. -/
structure SocketData where
  role : Option Role := none
  roomId : Option String := none
  secretKey : Option String := none
deriving DecidableEq

/-- The whole server state: the global `rooms` object plus each live
socket's `socket.data`. -/
structure ServerState where
  rooms : List (String × Room)
  sockets : List (String × SocketData)
deriving DecidableEq

/-- JS object property lookup on an association list. -/
def alistLookup {α : Type} : List (String × α) → String → Option α
  | [], _ => none
  | (k', v) :: rest, k => if k' = k then some v else alistLookup rest k

/-- JS object property assignment: replaces the value in place when the key
exists, otherwise appends the new key at the end (JS iteration order). -/
def alistSet {α : Type} : List (String × α) → String → α → List (String × α)
  | [], k, v => [(k, v)]
  | (k', v') :: rest, k, v =>
    if k' = k then (k, v) :: rest else (k', v') :: alistSet rest k v

/-- The `socket.data` of a connection, defaulting every field to absent. -/
def getSocketData (s : ServerState) (sid : String) : SocketData :=
  (alistLookup s.sockets sid).getD {}

/-- Events the server emits (socket.io `emit` calls).  `playersUpdate` and
`bingoReported` target one socket; `numberDrawn` is broadcast to a room. -/
inductive Emit where
  | playersUpdate (target : String) (names : List String)
  | numberDrawn (room : String) (number : Int) (drawnNumbers : List Int)
  | bingoReported (target : String) (name : String)
deriving DecidableEq

/-- Result of a handler: the new server state, the callback reply, and the
events emitted while it ran. -/
structure Out (ρ : Type) where
  state : ServerState
  reply : ρ
  emits : List Emit
deriving DecidableEq

/-- Function `generateSecretKey` (server.js lines 28-30):
`Math.floor(1000 + Math.random() * 9000).toString()`.  For `r ∈ [0,1)` the
floor is exactly `1000 + k` for some `k < 9000`, so the random draw is
modelled by an arbitrary natural `k` reduced mod 9000. -/
def generateSecretKey (k : Nat) : String :=
  toString (1000 + k % 9000)

/-- Names of the currently online players of a room, in map iteration
order (server.js lines 37-40). -/
def onlineNames (room : Room) : List String :=
  (room.players.filter (fun kp => kp.2.socketId.isSome)).map (fun kp => kp.2.name)

/-- Function `emitPlayersUpdate` (server.js lines 33-43): sends the online player
names to the host socket; does nothing when the room is unknown or the
host is absent. -/
def emitPlayersUpdate (s : ServerState) (roomId : String) : List Emit :=
  match alistLookup s.rooms roomId with
  | none => []
  | some room =>
    match room.hostSocketId with
    | none => []
    | some h => [Emit.playersUpdate h (onlineNames room)]

/-- Normalisation `(roomId && roomId.trim()) || null` (server.js line 51): absent, empty
or all-whitespace ids normalise to `none`, anything else to its trim. -/
def normalizeRoomId : Option String → Option String
  | none => none
  | some s => if jsTrim s = "" then none else some (jsTrim s)

/-- The range test of server.js line 55:
`Number.isFinite(min) && Number.isFinite(max) && min <= max`. -/
def validRangeB (minNumber maxNumber : JsValue) : Bool :=
  match toNumber minNumber, toNumber maxNumber with
  | some a, some b => decide (a ≤ b)
  | _, _ => false

/-- Reply of `host:createRoom`'s callback. -/
inductive CreateReply where
  | err (message : String)
  | ok (rejoin : Bool) (room : Room)
deriving DecidableEq

/-- The room snapshot returned by `player:joinRoom` (server.js
lines 167-172). -/
structure RoomSummary where
  roomId : String
  minNumber : Int
  maxNumber : Int
  drawnNumbers : List Int
deriving DecidableEq

/-- Reply of `player:joinRoom`'s callback. -/
inductive JoinReply where
  | err (message : String)
  | ok (name : String) (secretKey : String) (rejoin : Bool)
       (cardNumbers : Option Card) (room : RoomSummary)
deriving DecidableEq

/-- Reply of `player:saveCard`'s callback (`{ok:false}` carries no
message). -/
inductive SaveReply where
  | fail
  | ok
deriving DecidableEq

/-- Reply of `host:drawNumber`'s callback. -/
inductive DrawReply where
  | err (message : String)
  | ok
deriving DecidableEq

/-- The error messages of server.js, under the names the spec gives the
error conditions. -/
def InvalidRangeError : String := "数字範囲が不正です。"

def HostAlreadyPresentError : String := "このルームIDにはすでにホストがいます。"

def RoomNotFoundHostMsg : String := "ルームが存在しません。"

def RoomNotFoundJoinMsg : String := "そのルームは存在しません。"

def MissingNameError : String := "名前を入力してください。"

def NotHostError : String := "ホストではありません。"

def InvalidNumberError : String := "数字が不正です。"

/-- The fall-through of `host:createRoom` (server.js lines 95-117): create
a brand-new room under the requested id, or under the generated id `genId`
when none was requested, and bind the caller as host.  Note the source
assigns `rooms[id] = {...}` unconditionally, so a generated id that
collides with an existing room silently overwrites it. -/
def createFreshRoom (s : ServerState) (sid : String) (inputId : Option String)
    (mn mx : Int) (genId : String) : Out CreateReply :=
  let id := inputId.getD genId
  let room : Room :=
    { roomId := id, hostSocketId := some sid, minNumber := mn, maxNumber := mx
      drawnNumbers := [], players := [] }
  let sdata := { getSocketData s sid with role := some Role.host, roomId := some id }
  let s' : ServerState :=
    { rooms := alistSet s.rooms id room, sockets := alistSet s.sockets sid sdata }
  ⟨s', .ok false room, []⟩

/-- Handler `host:createRoom` (server.js lines 49-118). -/
def hostCreateRoom (s : ServerState) (sid : String) (roomId : Option String)
    (minNumber maxNumber : JsValue) (genId : String) : Out CreateReply :=
  let inputId := normalizeRoomId roomId
  match toNumber minNumber, toNumber maxNumber with
  | some mn, some mx =>
    if mn > mx then ⟨s, .err InvalidRangeError, []⟩
    else
      match inputId with
      | some rid =>
        (match alistLookup s.rooms rid with
         | some room =>
           match room.hostSocketId with
           | some _ => ⟨s, .err HostAlreadyPresentError, []⟩
           | none =>
             let room' := { room with hostSocketId := some sid, minNumber := mn, maxNumber := mx }
             let sdata := { getSocketData s sid with role := some Role.host, roomId := some rid }
             let s' : ServerState :=
               { rooms := alistSet s.rooms rid room', sockets := alistSet s.sockets sid sdata }
             ⟨s', .ok true room', emitPlayersUpdate s' rid⟩
         | none => createFreshRoom s sid inputId mn mx genId)
      | none => createFreshRoom s sid inputId mn mx genId
  | _, _ => ⟨s, .err InvalidRangeError, []⟩

/-- Key resolution `let key = (secretKey || "").trim(); if (!key) key = generateSecretKey()`
(server.js lines 132-135): the effective key is the trimmed supplied key,
or a generated one when that is empty. -/
def resolveKey (secretKey : Option String) (genKeyRand : Nat) : String :=
  let key0 := jsTrim (secretKey.getD "")
  if key0 = "" then generateSecretKey genKeyRand else key0

/-- Handler `player:joinRoom` (server.js lines 121-174).  `genKeyRand` is the
`Math.random` oracle consumed only when the supplied key is absent or
blank. -/
def playerJoinRoom (s : ServerState) (sid : String) (roomId name : String)
    (secretKey : Option String) (genKeyRand : Nat) : Out JoinReply :=
  match alistLookup s.rooms roomId with
  | none => ⟨s, .err RoomNotFoundJoinMsg, []⟩
  | some room =>
    if jsTrim name = "" then ⟨s, .err MissingNameError, []⟩
    else
      let key := resolveKey secretKey genKeyRand
      let existed := (alistLookup room.players key).isSome
      let player0 := (alistLookup room.players key).getD
        { name := name, secretKey := key, socketId := none, cardNumbers := none }
      let player := { player0 with name := name, socketId := some sid }
      let room' := { room with players := alistSet room.players key player }
      let sdata : SocketData :=
        { role := some Role.player, roomId := some roomId, secretKey := some key }
      let s' : ServerState :=
        { rooms := alistSet s.rooms roomId room', sockets := alistSet s.sockets sid sdata }
      ⟨s',
       .ok name key existed player.cardNumbers
         { roomId := roomId, minNumber := room.minNumber, maxNumber := room.maxNumber
           drawnNumbers := room.drawnNumbers },
       emitPlayersUpdate s' roomId⟩

/-- Handler `player:saveCard` (server.js lines 177-188): no authentication, fails
with a bare `{ok:false}` when the room or the player is unknown, otherwise
overwrites `cardNumbers` wholesale. -/
def playerSaveCard (s : ServerState) (roomId secretKey : String)
    (cardNumbers : Card) : Out SaveReply :=
  match alistLookup s.rooms roomId with
  | none => ⟨s, .fail, []⟩
  | some room =>
    match alistLookup room.players secretKey with
    | none => ⟨s, .fail, []⟩
    | some player =>
      let player' := { player with cardNumbers := some cardNumbers }
      let room' := { room with players := alistSet room.players secretKey player' }
      ⟨{ s with rooms := alistSet s.rooms roomId room' }, .ok, []⟩

/-- Handler `host:drawNumber` (server.js lines 191-222): room must exist, caller
must be the bound host socket, `Number(number)` must be finite; the number
is appended only when absent, and the broadcast plus the `{ok:true}` ack
happen even for a duplicate. -/
def hostDrawNumber (s : ServerState) (sid : String) (roomId : String)
    (number : JsValue) : Out DrawReply :=
  match alistLookup s.rooms roomId with
  | none => ⟨s, .err RoomNotFoundHostMsg, []⟩
  | some room =>
    if room.hostSocketId ≠ some sid then ⟨s, .err NotHostError, []⟩
    else
      match toNumber number with
      | none => ⟨s, .err InvalidNumberError, []⟩
      | some n =>
        let drawn' := if n ∈ room.drawnNumbers then room.drawnNumbers
                      else room.drawnNumbers ++ [n]
        let room' := { room with drawnNumbers := drawn' }
        ⟨{ s with rooms := alistSet s.rooms roomId room' },
         .ok, [Emit.numberDrawn roomId n drawn']⟩

/-- Handler `player:bingo` (server.js lines 225-231): no callback; forwards the
claimed name to the host socket when one is bound. -/
def playerBingo (s : ServerState) (roomId name : String) : Out Unit :=
  match alistLookup s.rooms roomId with
  | none => ⟨s, (), []⟩
  | some room =>
    match room.hostSocketId with
    | none => ⟨s, (), []⟩
    | some h => ⟨s, (), [Emit.bingoReported h name]⟩

/-- Handler `disconnect` (server.js lines 234-257).  A host leaves its room intact
with `hostSocketId` nulled; a player keeps its record with `socketId`
nulled and the host is re-notified; a socket with no recorded role or room
changes nothing.  (`if (!role || !roomId)` also treats an empty-string
room id as absent.) -/
def handleDisconnect (s : ServerState) (sid : String) : Out Unit :=
  let d := getSocketData s sid
  match d.role, d.roomId with
  | some role, some roomId =>
    if roomId = "" then ⟨s, (), []⟩
    else
      match alistLookup s.rooms roomId with
      | none => ⟨s, (), []⟩
      | some room =>
        match role with
        | .host =>
          let room' := { room with hostSocketId := none }
          ⟨{ s with rooms := alistSet s.rooms roomId room' }, (), []⟩
        | .player =>
          let room' :=
            match d.secretKey with
            | some key =>
              (match alistLookup room.players key with
               | some p =>
                 let p' := { p with socketId := none }
                 { room with players := alistSet room.players key p' }
               | none => room)
            | none => room
          let s' := { s with rooms := alistSet s.rooms roomId room' }
          ⟨s', (), emitPlayersUpdate s' roomId⟩
  | _, _ => ⟨s, (), []⟩

/-- One inbound event, with the randomness it consumes supplied as oracle
fields (`genId` for the generated room id, `genKeyRand` for the generated
secret key). -/
inductive Op where
  | createRoom (sid : String) (roomId : Option String)
      (minNumber maxNumber : JsValue) (genId : String)
  | joinRoom (sid : String) (roomId name : String)
      (secretKey : Option String) (genKeyRand : Nat)
  | saveCard (sid : String) (roomId secretKey : String) (cardNumbers : Card)
  | drawNumber (sid : String) (roomId : String) (number : JsValue)
  | bingo (sid : String) (roomId name : String)
  | disconnect (sid : String)
deriving DecidableEq

/-- The state reached after dispatching one event. -/
def step (s : ServerState) : Op → ServerState
  | .createRoom sid roomId mn mx genId => (hostCreateRoom s sid roomId mn mx genId).state
  | .joinRoom sid roomId name secretKey genKeyRand =>
      (playerJoinRoom s sid roomId name secretKey genKeyRand).state
  | .saveCard _ roomId secretKey cardNumbers =>
      (playerSaveCard s roomId secretKey cardNumbers).state
  | .drawNumber sid roomId number => (hostDrawNumber s sid roomId number).state
  | .bingo _ roomId name => (playerBingo s roomId name).state
  | .disconnect sid => (handleDisconnect s sid).state

/-- The server boots with no rooms and no socket data. -/
def initState : ServerState := ⟨[], []⟩

/-- The state after a whole event sequence from boot. -/
def runOps (ops : List Op) : ServerState := ops.foldl step initState

/-- The draw history of a room, when the room exists. -/
def drawnAt (s : ServerState) (rid : String) : Option (List Int) :=
  (alistLookup s.rooms rid).map Room.drawnNumbers

/-- How one operation may change one room's draw history: an existing
history stays equal or gains exactly one new value at the end, a fresh
room starts empty, and rooms are never deleted. -/
def drawnStep : Option (List Int) → Option (List Int) → Prop
  | none, none => True
  | none, some l => l = []
  | some l, some l' => l' = l ∨ ∃ n, n ∉ l ∧ l' = l ++ [n]
  | some _, none => False

/-- Duplicate-freedom of an optional draw history. -/
def optNodup : Option (List Int) → Prop
  | none => True
  | some l => l.Nodup

/-- The collision-freedom the spec assumes of generated room ids: a
`createRoom` with no requested id must draw a generated id that is not
already a registry key.  Every other operation is unrestricted. -/
def genFresh (s : ServerState) : Op → Bool
  | .createRoom _ roomId _ _ genId =>
    (match normalizeRoomId roomId with
     | none => (alistLookup s.rooms genId).isNone
     | some _ => true)
  | _ => true

/-- A run in which every generated room id is fresh at the moment it is
drawn. -/
def okRun : ServerState → List Op → Bool
  | _, [] => true
  | s, op :: ops => genFresh s op && okRun (step s op) ops

theorem alistLookup_set {α : Type} (m : List (String × α)) (k : String) (v : α)
    (k' : String) :
    alistLookup (alistSet m k v) k' = if k = k' then some v else alistLookup m k' := by
  induction m with
  | nil => simp [alistSet, alistLookup]
  | cons kv rest ih =>
    obtain ⟨k0, v0⟩ := kv
    by_cases h0 : k0 = k
    · subst h0
      by_cases h1 : k0 = k'
      · subst h1; simp [alistSet, alistLookup]
      · simp [alistSet, alistLookup, h1]
    · by_cases h1 : k0 = k'
      · subst h1
        have : ¬ k = k0 := fun h => h0 h.symm
        simp [alistSet, alistLookup, h0, this]
      · simp [alistSet, alistLookup, h0, h1, ih]

theorem alistSet_length_of_mem {α : Type} (m : List (String × α)) (k : String)
    (v : α) (h : (alistLookup m k).isSome) :
    (alistSet m k v).length = m.length := by
  induction m with
  | nil => simp [alistLookup] at h
  | cons kv rest ih =>
    obtain ⟨k0, v0⟩ := kv
    by_cases h0 : k0 = k
    · simp [alistSet, h0]
    · simp [alistLookup, h0] at h
      simp [alistSet, h0, ih h]

theorem alistSet_length_of_not_mem {α : Type} (m : List (String × α)) (k : String)
    (v : α) (h : alistLookup m k = none) :
    (alistSet m k v).length = m.length + 1 := by
  induction m with
  | nil => simp [alistSet]
  | cons kv rest ih =>
    obtain ⟨k0, v0⟩ := kv
    by_cases h0 : k0 = k
    · simp [alistLookup, h0] at h
    · simp [alistLookup, h0] at h
      simp [alistSet, h0, ih h]

/-!  Branch equations for the handlers: each lemma states the handler's
whole result on one control-flow path of the source. -/

theorem playerJoinRoom_noRoom (s : ServerState) (sid roomId name : String)
    (sk : Option String) (kr : Nat) (h : alistLookup s.rooms roomId = none) :
    playerJoinRoom s sid roomId name sk kr = ⟨s, .err RoomNotFoundJoinMsg, []⟩ := by
  unfold playerJoinRoom
  rw [h]

theorem playerJoinRoom_noName (s : ServerState) (sid roomId name : String)
    (sk : Option String) (kr : Nat) (room : Room)
    (hroom : alistLookup s.rooms roomId = some room) (hname : jsTrim name = "") :
    playerJoinRoom s sid roomId name sk kr = ⟨s, .err MissingNameError, []⟩ := by
  unfold playerJoinRoom
  rw [hroom]
  simp [hname]

theorem playerJoinRoom_found (s : ServerState) (sid roomId name : String)
    (sk : Option String) (kr : Nat) (room : Room) (p : Player)
    (hroom : alistLookup s.rooms roomId = some room) (hname : jsTrim name ≠ "")
    (hp : alistLookup room.players (resolveKey sk kr) = some p) :
    playerJoinRoom s sid roomId name sk kr =
      (let key := resolveKey sk kr
       let p' : Player := { p with name := name, socketId := some sid }
       let s' : ServerState :=
         ⟨alistSet s.rooms roomId { room with players := alistSet room.players key p' },
          alistSet s.sockets sid ⟨some Role.player, some roomId, some key⟩⟩
       ⟨s',
        .ok name key true p.cardNumbers
          ⟨roomId, room.minNumber, room.maxNumber, room.drawnNumbers⟩,
        emitPlayersUpdate s' roomId⟩) := by
  unfold playerJoinRoom
  rw [hroom]
  simp [hname, hp]

theorem playerJoinRoom_new (s : ServerState) (sid roomId name : String)
    (sk : Option String) (kr : Nat) (room : Room)
    (hroom : alistLookup s.rooms roomId = some room) (hname : jsTrim name ≠ "")
    (hp : alistLookup room.players (resolveKey sk kr) = none) :
    playerJoinRoom s sid roomId name sk kr =
      (let key := resolveKey sk kr
       let p' : Player := ⟨name, key, some sid, none⟩
       let s' : ServerState :=
         ⟨alistSet s.rooms roomId { room with players := alistSet room.players key p' },
          alistSet s.sockets sid ⟨some Role.player, some roomId, some key⟩⟩
       ⟨s',
        .ok name key false none
          ⟨roomId, room.minNumber, room.maxNumber, room.drawnNumbers⟩,
        emitPlayersUpdate s' roomId⟩) := by
  unfold playerJoinRoom
  rw [hroom]
  simp [hname, hp]

theorem hostCreateRoom_invalidRange (s : ServerState) (sid : String)
    (roomId : Option String) (mn mx : JsValue) (genId : String)
    (h : validRangeB mn mx = false) :
    hostCreateRoom s sid roomId mn mx genId = ⟨s, .err InvalidRangeError, []⟩ := by
  unfold hostCreateRoom
  rcases hmn : toNumber mn with _ | a
  · rfl
  · rcases hmx : toNumber mx with _ | b
    · rfl
    · simp [validRangeB, hmn, hmx] at h
      simp [h]

theorem hostCreateRoom_hostPresent (s : ServerState) (sid : String)
    (roomId : Option String) (mn mx : JsValue) (genId : String)
    (rid : String) (room : Room) (hsid : String) (a b : Int)
    (hid : normalizeRoomId roomId = some rid)
    (hroom : alistLookup s.rooms rid = some room)
    (hhost : room.hostSocketId = some hsid)
    (hmn : toNumber mn = some a) (hmx : toNumber mx = some b) (hab : a ≤ b) :
    hostCreateRoom s sid roomId mn mx genId =
      ⟨s, .err HostAlreadyPresentError, []⟩ := by
  unfold hostCreateRoom
  rw [hmn, hmx]
  simp only [hid]
  simp [not_lt_of_le hab, hroom, hhost]

theorem hostCreateRoom_rejoin (s : ServerState) (sid : String)
    (roomId : Option String) (mn mx : JsValue) (genId : String)
    (rid : String) (room : Room) (a b : Int)
    (hid : normalizeRoomId roomId = some rid)
    (hroom : alistLookup s.rooms rid = some room)
    (hhost : room.hostSocketId = none)
    (hmn : toNumber mn = some a) (hmx : toNumber mx = some b) (hab : a ≤ b) :
    hostCreateRoom s sid roomId mn mx genId =
      (let room' := { room with hostSocketId := some sid, minNumber := a, maxNumber := b }
       let sdata := { getSocketData s sid with role := some Role.host, roomId := some rid }
       let s' : ServerState :=
         ⟨alistSet s.rooms rid room', alistSet s.sockets sid sdata⟩
       ⟨s', .ok true room', emitPlayersUpdate s' rid⟩) := by
  unfold hostCreateRoom
  rw [hmn, hmx]
  simp only [hid]
  simp [not_lt_of_le hab, hroom, hhost]

theorem hostCreateRoom_freshRequested (s : ServerState) (sid : String)
    (roomId : Option String) (mn mx : JsValue) (genId : String)
    (rid : String) (a b : Int)
    (hid : normalizeRoomId roomId = some rid)
    (hroom : alistLookup s.rooms rid = none)
    (hmn : toNumber mn = some a) (hmx : toNumber mx = some b) (hab : a ≤ b) :
    hostCreateRoom s sid roomId mn mx genId =
      createFreshRoom s sid (some rid) a b genId := by
  unfold hostCreateRoom
  rw [hmn, hmx]
  simp only [hid]
  simp [not_lt_of_le hab, hroom]

theorem hostCreateRoom_freshGenerated (s : ServerState) (sid : String)
    (roomId : Option String) (mn mx : JsValue) (genId : String) (a b : Int)
    (hid : normalizeRoomId roomId = none)
    (hmn : toNumber mn = some a) (hmx : toNumber mx = some b) (hab : a ≤ b) :
    hostCreateRoom s sid roomId mn mx genId =
      createFreshRoom s sid none a b genId := by
  unfold hostCreateRoom
  rw [hmn, hmx]
  simp only [hid]
  simp [not_lt_of_le hab]

theorem playerSaveCard_noRoom (s : ServerState) (roomId secretKey : String)
    (card : Card) (h : alistLookup s.rooms roomId = none) :
    playerSaveCard s roomId secretKey card = ⟨s, .fail, []⟩ := by
  unfold playerSaveCard
  rw [h]

theorem playerSaveCard_noPlayer (s : ServerState) (roomId secretKey : String)
    (card : Card) (room : Room) (hroom : alistLookup s.rooms roomId = some room)
    (hp : alistLookup room.players secretKey = none) :
    playerSaveCard s roomId secretKey card = ⟨s, .fail, []⟩ := by
  unfold playerSaveCard
  rw [hroom]
  simp [hp]

theorem playerSaveCard_found (s : ServerState) (roomId secretKey : String)
    (card : Card) (room : Room) (p : Player)
    (hroom : alistLookup s.rooms roomId = some room)
    (hp : alistLookup room.players secretKey = some p) :
    playerSaveCard s roomId secretKey card =
      (let p' : Player := { p with cardNumbers := some card }
       let room' := { room with players := alistSet room.players secretKey p' }
       ⟨{ s with rooms := alistSet s.rooms roomId room' }, .ok, []⟩) := by
  unfold playerSaveCard
  rw [hroom]
  simp [hp]

theorem hostDrawNumber_noRoom (s : ServerState) (sid roomId : String)
    (number : JsValue) (h : alistLookup s.rooms roomId = none) :
    hostDrawNumber s sid roomId number = ⟨s, .err RoomNotFoundHostMsg, []⟩ := by
  unfold hostDrawNumber
  rw [h]

theorem hostDrawNumber_notHost (s : ServerState) (sid roomId : String)
    (number : JsValue) (room : Room)
    (hroom : alistLookup s.rooms roomId = some room)
    (hhost : room.hostSocketId ≠ some sid) :
    hostDrawNumber s sid roomId number = ⟨s, .err NotHostError, []⟩ := by
  unfold hostDrawNumber
  rw [hroom]
  simp [hhost]

theorem hostDrawNumber_notFinite (s : ServerState) (sid roomId : String)
    (number : JsValue) (room : Room)
    (hroom : alistLookup s.rooms roomId = some room)
    (hhost : room.hostSocketId = some sid) (hn : toNumber number = none) :
    hostDrawNumber s sid roomId number = ⟨s, .err InvalidNumberError, []⟩ := by
  unfold hostDrawNumber
  rw [hroom]
  simp [hhost, hn]

theorem hostDrawNumber_finite (s : ServerState) (sid roomId : String)
    (number : JsValue) (room : Room) (n : Int)
    (hroom : alistLookup s.rooms roomId = some room)
    (hhost : room.hostSocketId = some sid) (hn : toNumber number = some n) :
    hostDrawNumber s sid roomId number =
      (let drawn' := if n ∈ room.drawnNumbers then room.drawnNumbers
                     else room.drawnNumbers ++ [n]
       ⟨{ s with rooms := alistSet s.rooms roomId { room with drawnNumbers := drawn' } },
        .ok, [Emit.numberDrawn roomId n drawn']⟩) := by
  unfold hostDrawNumber
  rw [hroom]
  simp [hhost, hn]

theorem playerBingo_noRoom (s : ServerState) (roomId name : String)
    (h : alistLookup s.rooms roomId = none) :
    playerBingo s roomId name = ⟨s, (), []⟩ := by
  unfold playerBingo
  rw [h]

theorem playerBingo_noHost (s : ServerState) (roomId name : String) (room : Room)
    (hroom : alistLookup s.rooms roomId = some room)
    (hhost : room.hostSocketId = none) :
    playerBingo s roomId name = ⟨s, (), []⟩ := by
  unfold playerBingo
  rw [hroom]
  simp [hhost]

theorem playerBingo_host (s : ServerState) (roomId name : String) (room : Room)
    (h : String) (hroom : alistLookup s.rooms roomId = some room)
    (hhost : room.hostSocketId = some h) :
    playerBingo s roomId name = ⟨s, (), [Emit.bingoReported h name]⟩ := by
  unfold playerBingo
  rw [hroom]
  simp [hhost]

theorem handleDisconnect_noRole (s : ServerState) (sid : String)
    (h : (getSocketData s sid).role = none ∨ (getSocketData s sid).roomId = none) :
    handleDisconnect s sid = ⟨s, (), []⟩ := by
  rcases h with h | h
  · simp [handleDisconnect, h]
  · rcases hr : (getSocketData s sid).role with _ | role <;>
      simp [handleDisconnect, h, hr]

theorem handleDisconnect_roomGone (s : ServerState) (sid : String)
    (role : Role) (rid : String) (hrole : (getSocketData s sid).role = some role)
    (hrid : (getSocketData s sid).roomId = some rid) (hne : rid ≠ "")
    (hroom : alistLookup s.rooms rid = none) :
    handleDisconnect s sid = ⟨s, (), []⟩ := by
  cases role <;> simp [handleDisconnect, hrole, hrid, hne, hroom]

theorem handleDisconnect_host (s : ServerState) (sid : String)
    (rid : String) (room : Room)
    (hrole : (getSocketData s sid).role = some Role.host)
    (hrid : (getSocketData s sid).roomId = some rid) (hne : rid ≠ "")
    (hroom : alistLookup s.rooms rid = some room) :
    handleDisconnect s sid =
      (let room' := { room with hostSocketId := none }
       ⟨{ s with rooms := alistSet s.rooms rid room' }, (), []⟩) := by
  simp [handleDisconnect, hrole, hrid, hne, hroom]

theorem handleDisconnect_player (s : ServerState) (sid : String)
    (rid key : String) (room : Room) (p : Player)
    (hrole : (getSocketData s sid).role = some Role.player)
    (hrid : (getSocketData s sid).roomId = some rid) (hne : rid ≠ "")
    (hkey : (getSocketData s sid).secretKey = some key)
    (hroom : alistLookup s.rooms rid = some room)
    (hp : alistLookup room.players key = some p) :
    handleDisconnect s sid =
      (let room' :=
         { room with players := alistSet room.players key { p with socketId := none } }
       let s' := { s with rooms := alistSet s.rooms rid room' }
       ⟨s', (), emitPlayersUpdate s' rid⟩) := by
  simp [handleDisconnect, hrole, hrid, hne, hroom, hkey, hp]

theorem handleDisconnect_playerGone (s : ServerState) (sid : String)
    (rid key : String) (room : Room)
    (hrole : (getSocketData s sid).role = some Role.player)
    (hrid : (getSocketData s sid).roomId = some rid) (hne : rid ≠ "")
    (hkey : (getSocketData s sid).secretKey = some key)
    (hroom : alistLookup s.rooms rid = some room)
    (hp : alistLookup room.players key = none) :
    handleDisconnect s sid =
      (let s' := { s with rooms := alistSet s.rooms rid room }
       ⟨s', (), emitPlayersUpdate s' rid⟩) := by
  simp [handleDisconnect, hrole, hrid, hne, hroom, hkey, hp]

theorem handleDisconnect_emptyRoomId (s : ServerState) (sid : String)
    (role : Role) (hrole : (getSocketData s sid).role = some role)
    (hrid : (getSocketData s sid).roomId = some "") :
    handleDisconnect s sid = ⟨s, (), []⟩ := by
  simp [handleDisconnect, hrole, hrid]

theorem handleDisconnect_noKey (s : ServerState) (sid : String)
    (rid : String) (room : Room)
    (hrole : (getSocketData s sid).role = some Role.player)
    (hrid : (getSocketData s sid).roomId = some rid) (hne : rid ≠ "")
    (hkey : (getSocketData s sid).secretKey = none)
    (hroom : alistLookup s.rooms rid = some room) :
    handleDisconnect s sid =
      (let s' := { s with rooms := alistSet s.rooms rid room }
       ⟨s', (), emitPlayersUpdate s' rid⟩) := by
  simp [handleDisconnect, hrole, hrid, hne, hroom, hkey]

theorem validRangeB_true {mn mx : JsValue} (h : validRangeB mn mx = true) :
    ∃ a b, toNumber mn = some a ∧ toNumber mx = some b ∧ a ≤ b := by
  unfold validRangeB at h
  rcases hmn : toNumber mn with _ | a <;> rw [hmn] at h
  · simp at h
  · rcases hmx : toNumber mx with _ | b <;> rw [hmx] at h
    · simp at h
    · exact ⟨a, b, rfl, rfl, by simpa using h⟩

theorem alistSet_alistSet {α : Type} (m : List (String × α)) (k : String) (v v' : α) :
    alistSet (alistSet m k v) k v' = alistSet m k v' := by
  induction m with
  | nil => simp [alistSet]
  | cons kv rest ih =>
    obtain ⟨k0, v0⟩ := kv
    by_cases h : k0 = k
    · simp [alistSet, h]
    · simp [alistSet, h, ih]

theorem mem_alistSet {α : Type} (m : List (String × α)) (k : String) (v : α)
    (x : String × α) (hx : x ∈ alistSet m k v) : x = (k, v) ∨ x ∈ m := by
  induction m with
  | nil => simpa [alistSet] using hx
  | cons kv rest ih =>
    obtain ⟨k0, v0⟩ := kv
    by_cases h : k0 = k
    · simp only [alistSet, if_pos h, List.mem_cons] at hx
      rcases hx with hx | hx
      · exact Or.inl hx
      · exact Or.inr (List.mem_cons_of_mem _ hx)
    · simp only [alistSet, if_neg h, List.mem_cons] at hx
      rcases hx with hx | hx
      · exact Or.inr (by rw [hx]; exact List.mem_cons_self _ _)
      · rcases ih hx with h1 | h1
        · exact Or.inl h1
        · exact Or.inr (List.mem_cons_of_mem _ h1)

theorem drawnStep_refl (x : Option (List Int)) : drawnStep x x := by
  cases x with
  | none => trivial
  | some l => exact Or.inl rfl

theorem drawnAt_set_room (s : ServerState) (sockets' : List (String × SocketData))
    (k : String) (room : Room) (rid : String) :
    drawnAt ⟨alistSet s.rooms k room, sockets'⟩ rid =
      if k = rid then some room.drawnNumbers else drawnAt s rid := by
  by_cases h : k = rid <;> simp [drawnAt, alistLookup_set, h]

theorem optNodup_of_drawnStep {x y : Option (List Int)} (hx : optNodup x)
    (hstep : drawnStep x y) : optNodup y := by
  cases x with
  | none =>
    cases y with
    | none => trivial
    | some l => rw [show l = [] from hstep]; exact List.nodup_nil
  | some l =>
    cases y with
    | none => exact hstep.elim
    | some l' =>
      rcases hstep with h | ⟨n, hn, h⟩
      · rw [h]; exact hx
      · show List.Nodup l'
        rw [h, List.nodup_append]
        refine ⟨hx, List.nodup_singleton n, ?_⟩
        intro a ha hb
        simp only [List.mem_singleton] at hb
        subst hb
        exact hn ha

theorem createFreshRoom_drawnAt (s : ServerState) (sid : String)
    (inputId : Option String) (a b : Int) (genId rid : String) :
    drawnAt (createFreshRoom s sid inputId a b genId).state rid =
      if inputId.getD genId = rid then some [] else drawnAt s rid := by
  simp only [createFreshRoom]
  rw [drawnAt_set_room]

theorem step_drawnStep (s : ServerState) (op : Op) (rid : String)
    (hfresh : genFresh s op = true) :
    drawnStep (drawnAt s rid) (drawnAt (step s op) rid) := by
  cases op with
  | createRoom sid roomId mn mx genId =>
    rcases hv : validRangeB mn mx with _ | _
    · rw [show step s (Op.createRoom sid roomId mn mx genId) = s from
        congrArg Out.state (hostCreateRoom_invalidRange s sid roomId mn mx genId hv)]
      exact drawnStep_refl _
    · obtain ⟨a, b, hmn, hmx, hab⟩ := validRangeB_true hv
      rcases hid : normalizeRoomId roomId with _ | rid0
      · -- no requested id: fresh room under the generated id, which is fresh
        have hgen : alistLookup s.rooms genId = none := by
          simp [genFresh, hid, Option.isNone_iff_eq_none] at hfresh
          exact hfresh
        have heq := hostCreateRoom_freshGenerated s sid roomId mn mx genId a b hid hmn hmx hab
        simp only [step, heq, createFreshRoom_drawnAt, Option.getD_none]
        by_cases hr : genId = rid
        · subst hr
          simp only [if_pos rfl]
          have : drawnAt s genId = none := by simp [drawnAt, hgen]
          rw [this]
          rfl
        · rw [if_neg hr]
          exact drawnStep_refl _
      · rcases hroomx : alistLookup s.rooms rid0 with _ | room
        · -- requested id unknown: fresh room under the requested id
          have heq := hostCreateRoom_freshRequested s sid roomId mn mx genId rid0 a b hid hroomx hmn hmx hab
          simp only [step, heq, createFreshRoom_drawnAt, Option.getD_some]
          by_cases hr : rid0 = rid
          · subst hr
            simp only [if_pos rfl]
            have : drawnAt s rid0 = none := by simp [drawnAt, hroomx]
            rw [this]
            rfl
          · rw [if_neg hr]
            exact drawnStep_refl _
        · rcases hhost : room.hostSocketId with _ | h0
          · -- host absent: rebind, history preserved
            have heq := hostCreateRoom_rejoin s sid roomId mn mx genId rid0 room a b hid hroomx hhost hmn hmx hab
            simp only [step, heq, drawnAt_set_room]
            by_cases hr : rid0 = rid
            · subst hr
              have : drawnAt s rid0 = some room.drawnNumbers := by simp [drawnAt, hroomx]
              rw [if_pos rfl, this]
              exact Or.inl rfl
            · rw [if_neg hr]
              exact drawnStep_refl _
          · -- live host: rejected, no mutation
            rw [show step s (Op.createRoom sid roomId mn mx genId) = s from
              congrArg Out.state
                (hostCreateRoom_hostPresent s sid roomId mn mx genId rid0 room h0 a b
                  hid hroomx hhost hmn hmx hab)]
            exact drawnStep_refl _
  | joinRoom sid roomId name sk kr =>
    rcases hroomx : alistLookup s.rooms roomId with _ | room
    · rw [show step s (Op.joinRoom sid roomId name sk kr) = s from
        congrArg Out.state (playerJoinRoom_noRoom s sid roomId name sk kr hroomx)]
      exact drawnStep_refl _
    · by_cases hname : jsTrim name = ""
      · rw [show step s (Op.joinRoom sid roomId name sk kr) = s from
          congrArg Out.state (playerJoinRoom_noName s sid roomId name sk kr room hroomx hname)]
        exact drawnStep_refl _
      · have hsame : ∀ players', drawnStep (drawnAt s rid)
            (drawnAt (⟨alistSet s.rooms roomId { room with players := players' },
              alistSet s.sockets sid
                ⟨some Role.player, some roomId, some (resolveKey sk kr)⟩⟩ : ServerState) rid) := by
          intro players'
          rw [drawnAt_set_room]
          by_cases hr : roomId = rid
          · subst hr
            have : drawnAt s roomId = some room.drawnNumbers := by simp [drawnAt, hroomx]
            rw [if_pos rfl, this]
            exact Or.inl rfl
          · rw [if_neg hr]
            exact drawnStep_refl _
        rcases hp : alistLookup room.players (resolveKey sk kr) with _ | p
        · have heq := playerJoinRoom_new s sid roomId name sk kr room hroomx hname hp
          simp only [step, heq]
          exact hsame _
        · have heq := playerJoinRoom_found s sid roomId name sk kr room p hroomx hname hp
          simp only [step, heq]
          exact hsame _
  | saveCard sid roomId key card =>
    rcases hroomx : alistLookup s.rooms roomId with _ | room
    · rw [show step s (Op.saveCard sid roomId key card) = s from
        congrArg Out.state (playerSaveCard_noRoom s roomId key card hroomx)]
      exact drawnStep_refl _
    · rcases hp : alistLookup room.players key with _ | p
      · rw [show step s (Op.saveCard sid roomId key card) = s from
          congrArg Out.state (playerSaveCard_noPlayer s roomId key card room hroomx hp)]
        exact drawnStep_refl _
      · have heq := playerSaveCard_found s roomId key card room p hroomx hp
        simp only [step, heq]
        rw [drawnAt_set_room]
        by_cases hr : roomId = rid
        · subst hr
          have : drawnAt s roomId = some room.drawnNumbers := by simp [drawnAt, hroomx]
          rw [if_pos rfl, this]
          exact Or.inl rfl
        · rw [if_neg hr]
          exact drawnStep_refl _
  | drawNumber sid roomId number =>
    rcases hroomx : alistLookup s.rooms roomId with _ | room
    · rw [show step s (Op.drawNumber sid roomId number) = s from
        congrArg Out.state (hostDrawNumber_noRoom s sid roomId number hroomx)]
      exact drawnStep_refl _
    · by_cases hhost : room.hostSocketId = some sid
      · rcases hn : toNumber number with _ | n
        · rw [show step s (Op.drawNumber sid roomId number) = s from
            congrArg Out.state (hostDrawNumber_notFinite s sid roomId number room hroomx hhost hn)]
          exact drawnStep_refl _
        · have heq := hostDrawNumber_finite s sid roomId number room n hroomx hhost hn
          simp only [step, heq]
          rw [drawnAt_set_room]
          by_cases hr : roomId = rid
          · subst hr
            have hbefore : drawnAt s roomId = some room.drawnNumbers := by simp [drawnAt, hroomx]
            rw [if_pos rfl, hbefore]
            by_cases hmem : n ∈ room.drawnNumbers
            · rw [if_pos hmem]
              exact Or.inl rfl
            · rw [if_neg hmem]
              exact Or.inr ⟨n, hmem, rfl⟩
          · rw [if_neg hr]
            exact drawnStep_refl _
      · rw [show step s (Op.drawNumber sid roomId number) = s from
          congrArg Out.state (hostDrawNumber_notHost s sid roomId number room hroomx hhost)]
        exact drawnStep_refl _
  | bingo sid roomId name =>
    rcases hroomx : alistLookup s.rooms roomId with _ | room
    · rw [show step s (Op.bingo sid roomId name) = s from
        congrArg Out.state (playerBingo_noRoom s roomId name hroomx)]
      exact drawnStep_refl _
    · rcases hhost : room.hostSocketId with _ | h0
      · rw [show step s (Op.bingo sid roomId name) = s from
          congrArg Out.state (playerBingo_noHost s roomId name room hroomx hhost)]
        exact drawnStep_refl _
      · rw [show step s (Op.bingo sid roomId name) = s from
          congrArg Out.state (playerBingo_host s roomId name room h0 hroomx hhost)]
        exact drawnStep_refl _
  | disconnect sid =>
    rcases hrole : (getSocketData s sid).role with _ | role
    · rw [show step s (Op.disconnect sid) = s from
        congrArg Out.state (handleDisconnect_noRole s sid (Or.inl hrole))]
      exact drawnStep_refl _
    · rcases hrid : (getSocketData s sid).roomId with _ | rid0
      · rw [show step s (Op.disconnect sid) = s from
          congrArg Out.state (handleDisconnect_noRole s sid (Or.inr hrid))]
        exact drawnStep_refl _
      · by_cases hne : rid0 = ""
        · subst hne
          rw [show step s (Op.disconnect sid) = s from
            congrArg Out.state (handleDisconnect_emptyRoomId s sid role hrole hrid)]
          exact drawnStep_refl _
        · rcases hroomx : alistLookup s.rooms rid0 with _ | room
          · rw [show step s (Op.disconnect sid) = s from
              congrArg Out.state (handleDisconnect_roomGone s sid role rid0 hrole hrid hne hroomx)]
            exact drawnStep_refl _
          · have hafter : ∀ room' : Room, room'.drawnNumbers = room.drawnNumbers →
                drawnStep (drawnAt s rid)
                  (drawnAt ({ s with rooms := alistSet s.rooms rid0 room' } : ServerState) rid) := by
              intro room' hdrawn
              rw [drawnAt_set_room, hdrawn]
              by_cases hr : rid0 = rid
              · subst hr
                have : drawnAt s rid0 = some room.drawnNumbers := by simp [drawnAt, hroomx]
                rw [if_pos rfl, this]
                exact Or.inl rfl
              · rw [if_neg hr]
                exact drawnStep_refl _
            cases role with
            | host =>
              have heq := handleDisconnect_host s sid rid0 room hrole hrid hne hroomx
              simp only [step, heq]
              exact hafter _ rfl
            | player =>
              rcases hkey : (getSocketData s sid).secretKey with _ | key
              · have heq := handleDisconnect_noKey s sid rid0 room hrole hrid hne hkey hroomx
                simp only [step, heq]
                exact hafter _ rfl
              · rcases hp : alistLookup room.players key with _ | p
                · have heq := handleDisconnect_playerGone s sid rid0 key room hrole hrid hne hkey hroomx hp
                  simp only [step, heq]
                  exact hafter _ rfl
                · have heq := handleDisconnect_player s sid rid0 key room p hrole hrid hne hkey hroomx hp
                  simp only [step, heq]
                  exact hafter _ rfl

theorem okRun_nodup (ops : List Op) (s : ServerState)
    (hs : ∀ rid, optNodup (drawnAt s rid)) (hok : okRun s ops = true) :
    ∀ rid, optNodup (drawnAt (ops.foldl step s) rid) := by
  induction ops generalizing s with
  | nil => exact hs
  | cons op ops ih =>
    rw [okRun, Bool.and_eq_true] at hok
    exact ih (step s op)
      (fun rid => optNodup_of_drawnStep (hs rid) (step_drawnStep s op rid hok.1)) hok.2

/-!  The claims. -/

/-- C1 (amended): for every room and every operation sequence in which each
`createOrRejoinRoom` without a requested id draws a generated id that is not
already a registry key, `drawnNumbers` stays duplicate-free, and each single
operation leaves every room's history unchanged, or extends it by one new
value at the end, or creates it empty. -/
theorem drawnNumbers_append_only :
    (∀ (s : ServerState) (op : Op) (rid : String), genFresh s op = true →
      drawnStep (drawnAt s rid) (drawnAt (step s op) rid)) ∧
    (∀ (ops : List Op) (rid : String), okRun initState ops = true →
      optNodup (drawnAt (runOps ops) rid)) :=
  ⟨fun s op rid h => step_drawnStep s op rid h,
   fun ops rid h => okRun_nodup ops initState (fun _ => trivial) h rid⟩

theorem drawnNumbers_append_only_witness :
    drawnStep
      (drawnAt (runOps [Op.createRoom "h" (some "R1") (.jnum (some 1)) (.jnum (some 75)) "g",
                        Op.drawNumber "h" "R1" (.jnum (some 17))]) "R1")
      (drawnAt (step (runOps [Op.createRoom "h" (some "R1") (.jnum (some 1)) (.jnum (some 75)) "g",
                              Op.drawNumber "h" "R1" (.jnum (some 17))])
                     (Op.drawNumber "h" "R1" (.jnum (some 42)))) "R1") ∧
    optNodup (drawnAt (runOps [Op.createRoom "h" (some "R1") (.jnum (some 1)) (.jnum (some 75)) "g",
                               Op.drawNumber "h" "R1" (.jnum (some 17)),
                               Op.drawNumber "h" "R1" (.jnum (some 42))]) "R1") :=
  ⟨drawnNumbers_append_only.1 _ (Op.drawNumber "h" "R1" (.jnum (some 42))) "R1" (by decide),
   drawnNumbers_append_only.2
     [Op.createRoom "h" (some "R1") (.jnum (some 1)) (.jnum (some 75)) "g",
      Op.drawNumber "h" "R1" (.jnum (some 17)),
      Op.drawNumber "h" "R1" (.jnum (some 42))] "R1" (by decide)⟩

/-- C1 as frozen is false on the code: a `createOrRejoinRoom` with no
requested id whose generated id collides with an existing room silently
overwrites that room (server.js line 98, `rooms[id] = {...}`), so the
room's `drawnNumbers` drops from `[17]` back to `[]` — an element is lost,
which the claimed unchanged-or-extended evolution forbids. -/
theorem drawnNumbers_lost_on_genId_collision :
    drawnAt (runOps [Op.createRoom "h" (some "R") (.jnum (some 1)) (.jnum (some 75)) "g",
                     Op.drawNumber "h" "R" (.jnum (some 17))]) "R" = some [17] ∧
    drawnAt (runOps [Op.createRoom "h" (some "R") (.jnum (some 1)) (.jnum (some 75)) "g",
                     Op.drawNumber "h" "R" (.jnum (some 17)),
                     Op.createRoom "h2" none (.jnum (some 1)) (.jnum (some 75)) "R"]) "R" =
      some [] ∧
    ¬ drawnStep (some [17]) (some []) := by
  refine ⟨by decide, by decide, ?_⟩
  rintro (h | ⟨n, -, h⟩) <;> simp at h

/-- C2: with a bound host, drawing the same finite number twice leaves it in
the history exactly once, both calls ack `{ok:true}`, and both calls
broadcast the number with the full updated history to the room; the
concrete scenario 17, 17, 42 ends with `drawnNumbers = [17, 42]`. -/
theorem drawNumber_duplicate_idempotent :
    (∀ (s : ServerState) (rid hostSid : String) (room : Room) (n : Int),
      alistLookup s.rooms rid = some room →
      room.hostSocketId = some hostSid →
      room.drawnNumbers.Nodup →
      (hostDrawNumber s hostSid rid (.jnum (some n))).reply = .ok ∧
      (hostDrawNumber (hostDrawNumber s hostSid rid (.jnum (some n))).state
          hostSid rid (.jnum (some n))).reply = .ok ∧
      ∃ d,
        drawnAt (hostDrawNumber (hostDrawNumber s hostSid rid (.jnum (some n))).state
            hostSid rid (.jnum (some n))).state rid = some d ∧
        d.count n = 1 ∧
        (hostDrawNumber s hostSid rid (.jnum (some n))).emits = [Emit.numberDrawn rid n d] ∧
        (hostDrawNumber (hostDrawNumber s hostSid rid (.jnum (some n))).state
            hostSid rid (.jnum (some n))).emits = [Emit.numberDrawn rid n d]) ∧
    (drawnAt (runOps [Op.createRoom "h" (some "R1") (.jnum (some 1)) (.jnum (some 75)) "g",
                      Op.drawNumber "h" "R1" (.jnum (some 17)),
                      Op.drawNumber "h" "R1" (.jnum (some 17)),
                      Op.drawNumber "h" "R1" (.jnum (some 42))]) "R1" = some [17, 42] ∧
     (hostDrawNumber (runOps [Op.createRoom "h" (some "R1") (.jnum (some 1)) (.jnum (some 75)) "g"])
        "h" "R1" (.jnum (some 17))).emits = [Emit.numberDrawn "R1" 17 [17]] ∧
     (hostDrawNumber (runOps [Op.createRoom "h" (some "R1") (.jnum (some 1)) (.jnum (some 75)) "g",
                              Op.drawNumber "h" "R1" (.jnum (some 17))])
        "h" "R1" (.jnum (some 17))).emits = [Emit.numberDrawn "R1" 17 [17]] ∧
     (hostDrawNumber (runOps [Op.createRoom "h" (some "R1") (.jnum (some 1)) (.jnum (some 75)) "g",
                              Op.drawNumber "h" "R1" (.jnum (some 17)),
                              Op.drawNumber "h" "R1" (.jnum (some 17))])
        "h" "R1" (.jnum (some 42))).emits = [Emit.numberDrawn "R1" 42 [17, 42]]) := by
  constructor
  · intro s rid hostSid room n hroom hhost hnodup
    have h1 := hostDrawNumber_finite s hostSid rid (.jnum (some n)) room n hroom hhost rfl
    simp only at h1
    set d1 := if n ∈ room.drawnNumbers then room.drawnNumbers
              else room.drawnNumbers ++ [n] with hd1
    have hroom1 :
        alistLookup (hostDrawNumber s hostSid rid (.jnum (some n))).state.rooms rid =
          some { room with drawnNumbers := d1 } := by
      rw [h1]
      simp [alistLookup_set]
    have hhost1 : ({ room with drawnNumbers := d1 } : Room).hostSocketId = some hostSid := hhost
    have h2 := hostDrawNumber_finite (hostDrawNumber s hostSid rid (.jnum (some n))).state
      hostSid rid (.jnum (some n)) { room with drawnNumbers := d1 } n hroom1 hhost1 rfl
    simp only at h2
    have hmem1 : n ∈ d1 := by
      rw [hd1]
      by_cases hmem : n ∈ room.drawnNumbers
      · rwa [if_pos hmem]
      · rw [if_neg hmem]
        exact List.mem_append_right _ (List.mem_singleton_self n)
    rw [if_pos hmem1] at h2
    refine ⟨by rw [h1], by rw [h2], d1, ?_, ?_, by rw [h1], by rw [h2]⟩
    · rw [h2]
      simp [drawnAt, alistLookup_set]
    · rw [hd1]
      by_cases hmem : n ∈ room.drawnNumbers
      · rw [if_pos hmem]
        exact List.count_eq_one_of_mem hnodup hmem
      · rw [if_neg hmem, List.count_append]
        simp [List.count_eq_zero_of_not_mem hmem]
  · refine ⟨by decide, by decide, by decide, by decide⟩

theorem drawNumber_duplicate_idempotent_witness :
    (hostDrawNumber (runOps [Op.createRoom "h" (some "R2") (.jnum (some 1)) (.jnum (some 9)) "g"])
        "h" "R2" (.jnum (some 5))).reply = .ok ∧
    (hostDrawNumber
        (hostDrawNumber (runOps [Op.createRoom "h" (some "R2") (.jnum (some 1)) (.jnum (some 9)) "g"])
          "h" "R2" (.jnum (some 5))).state "h" "R2" (.jnum (some 5))).reply = .ok ∧
    ∃ d,
      drawnAt (hostDrawNumber
          (hostDrawNumber (runOps [Op.createRoom "h" (some "R2") (.jnum (some 1)) (.jnum (some 9)) "g"])
            "h" "R2" (.jnum (some 5))).state "h" "R2" (.jnum (some 5))).state "R2" = some d ∧
      d.count 5 = 1 ∧
      (hostDrawNumber (runOps [Op.createRoom "h" (some "R2") (.jnum (some 1)) (.jnum (some 9)) "g"])
          "h" "R2" (.jnum (some 5))).emits = [Emit.numberDrawn "R2" 5 d] ∧
      (hostDrawNumber
          (hostDrawNumber (runOps [Op.createRoom "h" (some "R2") (.jnum (some 1)) (.jnum (some 9)) "g"])
            "h" "R2" (.jnum (some 5))).state "h" "R2" (.jnum (some 5))).emits =
        [Emit.numberDrawn "R2" 5 d] :=
  drawNumber_duplicate_idempotent.1
    (runOps [Op.createRoom "h" (some "R2") (.jnum (some 1)) (.jnum (some 9)) "g"])
    "R2" "h" ⟨"R2", some "h", 1, 9, [], []⟩ 5 (by decide) rfl (by decide)

/-- C3: a room whose host is absent is reclaimed by `createOrRejoinRoom`
with that room's id and any valid range: the caller becomes the bound host,
the range is overwritten, the result is flagged as a rejoin, and the
room's `drawnNumbers` and `players` are exactly as before. -/
theorem createOrRejoinRoom_reclaims_hostless_room
    (s : ServerState) (sid rid genId : String) (room : Room)
    (mn mx : JsValue) (a b : Int)
    (hroom : alistLookup s.rooms rid = some room)
    (hhost : room.hostSocketId = none)
    (htrim : jsTrim rid = rid) (hne : rid ≠ "")
    (hmn : toNumber mn = some a) (hmx : toNumber mx = some b) (hab : a ≤ b) :
    (hostCreateRoom s sid (some rid) mn mx genId).reply =
      .ok true { room with hostSocketId := some sid, minNumber := a, maxNumber := b } ∧
    alistLookup (hostCreateRoom s sid (some rid) mn mx genId).state.rooms rid =
      some { room with hostSocketId := some sid, minNumber := a, maxNumber := b } := by
  have hid : normalizeRoomId (some rid) = some rid := by
    simp [normalizeRoomId, htrim, hne]
  have h := hostCreateRoom_rejoin s sid (some rid) mn mx genId rid room a b
    hid hroom hhost hmn hmx hab
  rw [h]
  exact ⟨rfl, by simp [alistLookup_set]⟩

theorem createOrRejoinRoom_reclaims_hostless_room_witness :
    (hostCreateRoom (runOps [Op.createRoom "h" (some "R1") (.jnum (some 1)) (.jnum (some 75)) "g",
                             Op.disconnect "h"])
        "h2" (some "R1") (.jnum (some 5)) (.jnum (some 50)) "z").reply =
      .ok true ⟨"R1", some "h2", 5, 50, [], []⟩ ∧
    alistLookup (hostCreateRoom (runOps [Op.createRoom "h" (some "R1") (.jnum (some 1)) (.jnum (some 75)) "g",
                                         Op.disconnect "h"])
        "h2" (some "R1") (.jnum (some 5)) (.jnum (some 50)) "z").state.rooms "R1" =
      some ⟨"R1", some "h2", 5, 50, [], []⟩ :=
  createOrRejoinRoom_reclaims_hostless_room
    (runOps [Op.createRoom "h" (some "R1") (.jnum (some 1)) (.jnum (some 75)) "g",
             Op.disconnect "h"])
    "h2" "R1" "z" ⟨"R1", none, 1, 75, [], []⟩ (.jnum (some 5)) (.jnum (some 50)) 5 50
    (by decide) rfl (by decide) (by decide) rfl rfl (by decide)

/-- C5: `drawNumber` from a connection that is not the room's bound host
socket is rejected with `NotHostError`, emits nothing, and leaves the
state — in particular `drawnNumbers` — unchanged. -/
theorem drawNumber_nonHost_rejected
    (s : ServerState) (sid rid : String) (room : Room) (number : JsValue)
    (hroom : alistLookup s.rooms rid = some room)
    (hhost : room.hostSocketId ≠ some sid) :
    (hostDrawNumber s sid rid number).reply = .err NotHostError ∧
    (hostDrawNumber s sid rid number).emits = [] ∧
    (hostDrawNumber s sid rid number).state = s ∧
    drawnAt (hostDrawNumber s sid rid number).state rid = drawnAt s rid := by
  have h := hostDrawNumber_notHost s sid rid number room hroom hhost
  rw [h]
  exact ⟨rfl, rfl, rfl, rfl⟩

theorem drawNumber_nonHost_rejected_witness :
    (hostDrawNumber (runOps [Op.createRoom "h" (some "R1") (.jnum (some 1)) (.jnum (some 75)) "g"])
        "mallory" "R1" (.jnum (some 17))).reply = .err NotHostError ∧
    (hostDrawNumber (runOps [Op.createRoom "h" (some "R1") (.jnum (some 1)) (.jnum (some 75)) "g"])
        "mallory" "R1" (.jnum (some 17))).emits = [] ∧
    (hostDrawNumber (runOps [Op.createRoom "h" (some "R1") (.jnum (some 1)) (.jnum (some 75)) "g"])
        "mallory" "R1" (.jnum (some 17))).state =
      runOps [Op.createRoom "h" (some "R1") (.jnum (some 1)) (.jnum (some 75)) "g"] ∧
    drawnAt (hostDrawNumber (runOps [Op.createRoom "h" (some "R1") (.jnum (some 1)) (.jnum (some 75)) "g"])
        "mallory" "R1" (.jnum (some 17))).state "R1" =
      drawnAt (runOps [Op.createRoom "h" (some "R1") (.jnum (some 1)) (.jnum (some 75)) "g"]) "R1" :=
  drawNumber_nonHost_rejected
    (runOps [Op.createRoom "h" (some "R1") (.jnum (some 1)) (.jnum (some 75)) "g"])
    "mallory" "R1" ⟨"R1", some "h", 1, 75, [], []⟩ (.jnum (some 17)) (by decide) (by decide)

/-- C6: while a room has a live host, `createOrRejoinRoom` with that room's
id (and an otherwise valid range) is rejected with
`HostAlreadyPresentError` and the whole state is unmodified. -/
theorem createOrRejoinRoom_hostConflict
    (s : ServerState) (sid rid genId : String) (room : Room) (h0 : String)
    (mn mx : JsValue) (a b : Int)
    (hroom : alistLookup s.rooms rid = some room)
    (hhost : room.hostSocketId = some h0)
    (htrim : jsTrim rid = rid) (hne : rid ≠ "")
    (hmn : toNumber mn = some a) (hmx : toNumber mx = some b) (hab : a ≤ b) :
    (hostCreateRoom s sid (some rid) mn mx genId).reply = .err HostAlreadyPresentError ∧
    (hostCreateRoom s sid (some rid) mn mx genId).emits = [] ∧
    (hostCreateRoom s sid (some rid) mn mx genId).state = s := by
  have hid : normalizeRoomId (some rid) = some rid := by
    simp [normalizeRoomId, htrim, hne]
  have h := hostCreateRoom_hostPresent s sid (some rid) mn mx genId rid room h0 a b
    hid hroom hhost hmn hmx hab
  rw [h]
  exact ⟨rfl, rfl, rfl⟩

theorem createOrRejoinRoom_hostConflict_witness :
    (hostCreateRoom (runOps [Op.createRoom "h" (some "R1") (.jnum (some 1)) (.jnum (some 75)) "g"])
        "h2" (some "R1") (.jnum (some 1)) (.jnum (some 75)) "z").reply =
      .err HostAlreadyPresentError ∧
    (hostCreateRoom (runOps [Op.createRoom "h" (some "R1") (.jnum (some 1)) (.jnum (some 75)) "g"])
        "h2" (some "R1") (.jnum (some 1)) (.jnum (some 75)) "z").emits = [] ∧
    (hostCreateRoom (runOps [Op.createRoom "h" (some "R1") (.jnum (some 1)) (.jnum (some 75)) "g"])
        "h2" (some "R1") (.jnum (some 1)) (.jnum (some 75)) "z").state =
      runOps [Op.createRoom "h" (some "R1") (.jnum (some 1)) (.jnum (some 75)) "g"] :=
  createOrRejoinRoom_hostConflict
    (runOps [Op.createRoom "h" (some "R1") (.jnum (some 1)) (.jnum (some 75)) "g"])
    "h2" "R1" "z" ⟨"R1", some "h", 1, 75, [], []⟩ "h" (.jnum (some 1)) (.jnum (some 75)) 1 75
    (by decide) rfl (by decide) (by decide) rfl rfl (by decide)

/-- C7: when the range is invalid — a bound that does not coerce to a
finite number, or min above max — `createOrRejoinRoom` fails with
`InvalidRangeError` and the registry is untouched: no room created, none
rebound or modified. -/
theorem createOrRejoinRoom_invalidRange_noEffect
    (s : ServerState) (sid : String) (roomId : Option String)
    (mn mx : JsValue) (genId : String)
    (h : toNumber mn = none ∨ toNumber mx = none ∨
         ∃ a b, toNumber mn = some a ∧ toNumber mx = some b ∧ a > b) :
    (hostCreateRoom s sid roomId mn mx genId).reply = .err InvalidRangeError ∧
    (hostCreateRoom s sid roomId mn mx genId).emits = [] ∧
    (hostCreateRoom s sid roomId mn mx genId).state = s := by
  have hv : validRangeB mn mx = false := by
    rcases h with h | h | ⟨a, b, ha, hb, hab⟩
    · simp [validRangeB, h]
    · rcases hmn : toNumber mn with _ | a
      · simp [validRangeB, hmn]
      · simp [validRangeB, hmn, h]
    · simp only [validRangeB, ha, hb, decide_eq_false_iff_not]
      exact not_le_of_gt hab
  have heq := hostCreateRoom_invalidRange s sid roomId mn mx genId hv
  rw [heq]
  exact ⟨rfl, rfl, rfl⟩

theorem createOrRejoinRoom_invalidRange_noEffect_witness :
    ((hostCreateRoom initState "h" (some "R1") (.jnum (some 9)) (.jnum (some 2)) "g").reply =
        .err InvalidRangeError ∧
      (hostCreateRoom initState "h" (some "R1") (.jnum (some 9)) (.jnum (some 2)) "g").emits = [] ∧
      (hostCreateRoom initState "h" (some "R1") (.jnum (some 9)) (.jnum (some 2)) "g").state =
        initState) ∧
    ((hostCreateRoom initState "h" (some "R1") .jundefined (.jnum (some 2)) "g").reply =
        .err InvalidRangeError ∧
      (hostCreateRoom initState "h" (some "R1") .jundefined (.jnum (some 2)) "g").emits = [] ∧
      (hostCreateRoom initState "h" (some "R1") .jundefined (.jnum (some 2)) "g").state =
        initState) :=
  ⟨createOrRejoinRoom_invalidRange_noEffect initState "h" (some "R1")
      (.jnum (some 9)) (.jnum (some 2)) "g" (Or.inr (Or.inr ⟨9, 2, rfl, rfl, by decide⟩)),
   createOrRejoinRoom_invalidRange_noEffect initState "h" (some "R1")
      .jundefined (.jnum (some 2)) "g" (Or.inl rfl)⟩

/-- A 4-digit numeric key, characterised by its numeric value: the decimal
numeral of some `m` with `1000 ≤ m ≤ 9999`. -/
def isFourDigitNumeric (s : String) : Prop :=
  ∃ m : Nat, 1000 ≤ m ∧ m ≤ 9999 ∧ s = toString m

theorem generateSecretKey_fourDigit (k : Nat) :
    isFourDigitNumeric (generateSecretKey k) := by
  refine ⟨1000 + k % 9000, Nat.le_add_right 1000 _, ?_, rfl⟩
  have := Nat.mod_lt k (show 0 < 9000 by decide)
  omega

/-- C4: `joinRoom` with a key that trims to an existing player's key
resumes that record — nothing is created, `rejoin:true` and the saved
`cardNumbers` are returned, and only the record's name and connection
binding are updated; with an omitted or blank key a fresh 4-digit numeric
key is generated, returned with `rejoin:false`, and a new record with null
`cardNumbers` is created. -/
theorem joinRoom_resume_or_fresh :
    (∀ (s : ServerState) (sid rid name k : String) (room : Room) (p : Player) (kr : Nat),
      alistLookup s.rooms rid = some room →
      jsTrim name ≠ "" →
      jsTrim k = k → k ≠ "" →
      alistLookup room.players k = some p →
      (playerJoinRoom s sid rid name (some k) kr).reply =
        .ok name k true p.cardNumbers
          ⟨rid, room.minNumber, room.maxNumber, room.drawnNumbers⟩ ∧
      alistLookup (playerJoinRoom s sid rid name (some k) kr).state.rooms rid =
        some { room with players :=
                 alistSet room.players k { p with name := name, socketId := some sid } } ∧
      (alistSet room.players k { p with name := name, socketId := some sid }).length =
        room.players.length) ∧
    (∀ (s : ServerState) (sid rid name : String) (sk : Option String) (room : Room) (kr : Nat),
      alistLookup s.rooms rid = some room →
      jsTrim name ≠ "" →
      jsTrim (sk.getD "") = "" →
      alistLookup room.players (generateSecretKey kr) = none →
      (playerJoinRoom s sid rid name sk kr).reply =
        .ok name (generateSecretKey kr) false none
          ⟨rid, room.minNumber, room.maxNumber, room.drawnNumbers⟩ ∧
      isFourDigitNumeric (generateSecretKey kr) ∧
      alistLookup (playerJoinRoom s sid rid name sk kr).state.rooms rid =
        some { room with players :=
                 alistSet room.players (generateSecretKey kr) ⟨name, generateSecretKey kr, some sid, none⟩ } ∧
      (alistSet room.players (generateSecretKey kr)
          ⟨name, generateSecretKey kr, some sid, none⟩).length =
        room.players.length + 1) := by
  constructor
  · intro s sid rid name k room p kr hroom hname htrimk hnek hp
    have hk : resolveKey (some k) kr = k := by
      simp [resolveKey, htrimk, hnek]
    have hp' : alistLookup room.players (resolveKey (some k) kr) = some p := by
      rw [hk]; exact hp
    have heq := playerJoinRoom_found s sid rid name (some k) kr room p hroom hname hp'
    rw [heq]
    simp only [hk]
    refine ⟨by simp, by simp [alistLookup_set], ?_⟩
    exact alistSet_length_of_mem room.players k _ (by rw [hp]; rfl)
  · intro s sid rid name sk room kr hroom hname hblank hp
    have hk : resolveKey sk kr = generateSecretKey kr := by
      simp [resolveKey, hblank]
    have hp' : alistLookup room.players (resolveKey sk kr) = none := by
      rw [hk]; exact hp
    have heq := playerJoinRoom_new s sid rid name sk kr room hroom hname hp'
    rw [heq]
    simp only [hk]
    exact ⟨by simp, generateSecretKey_fourDigit kr, by simp [alistLookup_set],
      alistSet_length_of_not_mem room.players _ _ hp⟩

theorem joinRoom_resume_or_fresh_witness :
    ((playerJoinRoom
        (runOps [Op.createRoom "h" (some "R1") (.jnum (some 1)) (.jnum (some 75)) "g",
                 Op.joinRoom "p1" "R1" "Alice" (some "K7") 0,
                 Op.saveCard "p1" "R1" "K7" [3, 1, 4]])
        "p2" "R1" "Al" (some "K7") 9).reply =
      .ok "Al" "K7" true (some [3, 1, 4]) ⟨"R1", 1, 75, []⟩ ∧
     alistLookup (playerJoinRoom
        (runOps [Op.createRoom "h" (some "R1") (.jnum (some 1)) (.jnum (some 75)) "g",
                 Op.joinRoom "p1" "R1" "Alice" (some "K7") 0,
                 Op.saveCard "p1" "R1" "K7" [3, 1, 4]])
        "p2" "R1" "Al" (some "K7") 9).state.rooms "R1" =
      some { roomId := "R1", hostSocketId := some "h", minNumber := 1, maxNumber := 75
             drawnNumbers := []
             players := alistSet [("K7", ⟨"Alice", "K7", some "p1", some [3, 1, 4]⟩)] "K7"
               ⟨"Al", "K7", some "p2", some [3, 1, 4]⟩ } ∧
     (alistSet [("K7", (⟨"Alice", "K7", some "p1", some [3, 1, 4]⟩ : Player))] "K7"
        ⟨"Al", "K7", some "p2", some [3, 1, 4]⟩).length =
      [("K7", (⟨"Alice", "K7", some "p1", some [3, 1, 4]⟩ : Player))].length) ∧
    ((playerJoinRoom
        (runOps [Op.createRoom "h" (some "R1") (.jnum (some 1)) (.jnum (some 75)) "g"])
        "p1" "R1" "Bob" none 42).reply =
      .ok "Bob" (generateSecretKey 42) false none ⟨"R1", 1, 75, []⟩ ∧
     isFourDigitNumeric (generateSecretKey 42) ∧
     alistLookup (playerJoinRoom
        (runOps [Op.createRoom "h" (some "R1") (.jnum (some 1)) (.jnum (some 75)) "g"])
        "p1" "R1" "Bob" none 42).state.rooms "R1" =
      some { roomId := "R1", hostSocketId := some "h", minNumber := 1, maxNumber := 75
             drawnNumbers := []
             players := alistSet [] (generateSecretKey 42)
               ⟨"Bob", generateSecretKey 42, some "p1", none⟩ } ∧
     (alistSet ([] : List (String × Player)) (generateSecretKey 42)
        ⟨"Bob", generateSecretKey 42, some "p1", none⟩).length =
      ([] : List (String × Player)).length + 1) :=
  ⟨joinRoom_resume_or_fresh.1
      (runOps [Op.createRoom "h" (some "R1") (.jnum (some 1)) (.jnum (some 75)) "g",
               Op.joinRoom "p1" "R1" "Alice" (some "K7") 0,
               Op.saveCard "p1" "R1" "K7" [3, 1, 4]])
      "p2" "R1" "Al" "K7"
      ⟨"R1", some "h", 1, 75, [], [("K7", ⟨"Alice", "K7", some "p1", some [3, 1, 4]⟩)]⟩
      ⟨"Alice", "K7", some "p1", some [3, 1, 4]⟩ 9
      (by decide) (by decide) (by decide) (by decide) (by decide),
   joinRoom_resume_or_fresh.2
      (runOps [Op.createRoom "h" (some "R1") (.jnum (some 1)) (.jnum (some 75)) "g"])
      "p1" "R1" "Bob" none ⟨"R1", some "h", 1, 75, [], []⟩ 42
      (by decide) (by decide) (by decide) (by decide)⟩

/-- C8: disconnect of a host nulls only `hostSocketId` (history and
players kept, socket data untouched, nothing emitted); disconnect of a
player nulls only that player's `socketId` (record retained, card kept)
and then runs the players-update notification on the new state; a
connection with no recorded role or room leaves the registry alone. -/
theorem disconnect_role_effects :
    (∀ (s : ServerState) (sid rid : String) (room : Room),
      (getSocketData s sid).role = some Role.host →
      (getSocketData s sid).roomId = some rid → rid ≠ "" →
      alistLookup s.rooms rid = some room →
      (handleDisconnect s sid).state.rooms =
        alistSet s.rooms rid { room with hostSocketId := none } ∧
      (handleDisconnect s sid).state.sockets = s.sockets ∧
      (handleDisconnect s sid).emits = []) ∧
    (∀ (s : ServerState) (sid rid k : String) (room : Room) (p : Player),
      (getSocketData s sid).role = some Role.player →
      (getSocketData s sid).roomId = some rid → rid ≠ "" →
      (getSocketData s sid).secretKey = some k →
      alistLookup s.rooms rid = some room →
      alistLookup room.players k = some p →
      (handleDisconnect s sid).state.rooms =
        alistSet s.rooms rid { room with players := alistSet room.players k { p with socketId := none } } ∧
      (handleDisconnect s sid).state.sockets = s.sockets ∧
      (handleDisconnect s sid).emits = emitPlayersUpdate (handleDisconnect s sid).state rid) ∧
    (∀ (s : ServerState) (sid : String),
      (getSocketData s sid).role = none ∨ (getSocketData s sid).roomId = none →
      handleDisconnect s sid = ⟨s, (), []⟩) := by
  refine ⟨?_, ?_, ?_⟩
  · intro s sid rid room hrole hrid hne hroom
    have heq := handleDisconnect_host s sid rid room hrole hrid hne hroom
    rw [heq]
    exact ⟨rfl, rfl, rfl⟩
  · intro s sid rid k room p hrole hrid hne hkey hroom hp
    have heq := handleDisconnect_player s sid rid k room p hrole hrid hne hkey hroom hp
    rw [heq]
    exact ⟨rfl, rfl, rfl⟩
  · intro s sid h
    exact handleDisconnect_noRole s sid h

theorem disconnect_role_effects_witness :
    ((handleDisconnect (runOps [Op.createRoom "h" (some "R1") (.jnum (some 1)) (.jnum (some 75)) "g"])
        "h").state.rooms =
      alistSet (runOps [Op.createRoom "h" (some "R1") (.jnum (some 1)) (.jnum (some 75)) "g"]).rooms
        "R1" { (⟨"R1", some "h", 1, 75, [], []⟩ : Room) with hostSocketId := none } ∧
     (handleDisconnect (runOps [Op.createRoom "h" (some "R1") (.jnum (some 1)) (.jnum (some 75)) "g"])
        "h").state.sockets =
      (runOps [Op.createRoom "h" (some "R1") (.jnum (some 1)) (.jnum (some 75)) "g"]).sockets ∧
     (handleDisconnect (runOps [Op.createRoom "h" (some "R1") (.jnum (some 1)) (.jnum (some 75)) "g"])
        "h").emits = []) ∧
    ((handleDisconnect (runOps [Op.createRoom "h" (some "R1") (.jnum (some 1)) (.jnum (some 75)) "g",
                                Op.joinRoom "p1" "R1" "Alice" (some "K7") 0])
        "p1").state.rooms =
      alistSet (runOps [Op.createRoom "h" (some "R1") (.jnum (some 1)) (.jnum (some 75)) "g",
                        Op.joinRoom "p1" "R1" "Alice" (some "K7") 0]).rooms
        "R1"
        { (⟨"R1", some "h", 1, 75, [], [("K7", ⟨"Alice", "K7", some "p1", none⟩)]⟩ : Room) with
            players := alistSet [("K7", ⟨"Alice", "K7", some "p1", none⟩)] "K7"
              { (⟨"Alice", "K7", some "p1", none⟩ : Player) with socketId := none } } ∧
     (handleDisconnect (runOps [Op.createRoom "h" (some "R1") (.jnum (some 1)) (.jnum (some 75)) "g",
                                Op.joinRoom "p1" "R1" "Alice" (some "K7") 0])
        "p1").state.sockets =
      (runOps [Op.createRoom "h" (some "R1") (.jnum (some 1)) (.jnum (some 75)) "g",
               Op.joinRoom "p1" "R1" "Alice" (some "K7") 0]).sockets ∧
     (handleDisconnect (runOps [Op.createRoom "h" (some "R1") (.jnum (some 1)) (.jnum (some 75)) "g",
                                Op.joinRoom "p1" "R1" "Alice" (some "K7") 0])
        "p1").emits =
      emitPlayersUpdate
        (handleDisconnect (runOps [Op.createRoom "h" (some "R1") (.jnum (some 1)) (.jnum (some 75)) "g",
                                   Op.joinRoom "p1" "R1" "Alice" (some "K7") 0])
          "p1").state "R1") ∧
    handleDisconnect initState "ghost" = ⟨initState, (), []⟩ :=
  ⟨disconnect_role_effects.1
      (runOps [Op.createRoom "h" (some "R1") (.jnum (some 1)) (.jnum (some 75)) "g"])
      "h" "R1" ⟨"R1", some "h", 1, 75, [], []⟩ (by decide) (by decide) (by decide) (by decide),
   disconnect_role_effects.2.1
      (runOps [Op.createRoom "h" (some "R1") (.jnum (some 1)) (.jnum (some 75)) "g",
               Op.joinRoom "p1" "R1" "Alice" (some "K7") 0])
      "p1" "R1" "K7" ⟨"R1", some "h", 1, 75, [], [("K7", ⟨"Alice", "K7", some "p1", none⟩)]⟩
      ⟨"Alice", "K7", some "p1", none⟩
      (by decide) (by decide) (by decide) (by decide) (by decide) (by decide),
   disconnect_role_effects.2.2 initState "ghost" (Or.inl rfl)⟩

/-- C9: `drawNumber` validates the `Number(...)` coercion of its payload,
not the raw payload: any payload coercing to a finite number — numeric
strings, booleans, `null` — is accepted and the coerced value is what is
recorded and broadcast, while `InvalidNumberError` arises exactly when the
coercion is `NaN` or infinite (`undefined`, non-numeric strings). -/
theorem drawNumber_coerces_payload :
    (∀ (s : ServerState) (sid rid : String) (room : Room) (v : JsValue) (n : Int),
      alistLookup s.rooms rid = some room →
      room.hostSocketId = some sid →
      toNumber v = some n →
      hostDrawNumber s sid rid v =
        (let drawn' := if n ∈ room.drawnNumbers then room.drawnNumbers
                       else room.drawnNumbers ++ [n]
         ⟨{ s with rooms := alistSet s.rooms rid { room with drawnNumbers := drawn' } },
          .ok, [Emit.numberDrawn rid n drawn']⟩)) ∧
    (∀ (s : ServerState) (sid rid : String) (room : Room) (v : JsValue),
      alistLookup s.rooms rid = some room →
      room.hostSocketId = some sid →
      toNumber v = none →
      hostDrawNumber s sid rid v = ⟨s, .err InvalidNumberError, []⟩) ∧
    toNumber (.jstr "17") = some 17 ∧
    toNumber (.jbool true) = some 1 ∧
    toNumber (.jbool false) = some 0 ∧
    toNumber .jnull = some 0 ∧
    toNumber .jundefined = none ∧
    toNumber (.jstr "abc") = none :=
  ⟨fun s sid rid room v n hroom hhost hn =>
      hostDrawNumber_finite s sid rid v room n hroom hhost hn,
   fun s sid rid room v hroom hhost hn =>
      hostDrawNumber_notFinite s sid rid v room hroom hhost hn,
   by decide, rfl, rfl, rfl, rfl, by decide⟩

theorem drawNumber_coerces_payload_witness :
    hostDrawNumber (runOps [Op.createRoom "h" (some "R1") (.jnum (some 1)) (.jnum (some 75)) "g"])
        "h" "R1" (.jstr "17") =
      (let drawn' := if (17 : Int) ∈ ([] : List Int) then ([] : List Int) else [] ++ [17]
       ⟨{ runOps [Op.createRoom "h" (some "R1") (.jnum (some 1)) (.jnum (some 75)) "g"] with
            rooms := alistSet (runOps [Op.createRoom "h" (some "R1") (.jnum (some 1)) (.jnum (some 75)) "g"]).rooms
              "R1" { (⟨"R1", some "h", 1, 75, [], []⟩ : Room) with drawnNumbers := drawn' } },
        .ok, [Emit.numberDrawn "R1" 17 drawn']⟩) ∧
    hostDrawNumber (runOps [Op.createRoom "h" (some "R1") (.jnum (some 1)) (.jnum (some 75)) "g"])
        "h" "R1" (.jstr "seventeen") =
      ⟨runOps [Op.createRoom "h" (some "R1") (.jnum (some 1)) (.jnum (some 75)) "g"],
       .err InvalidNumberError, []⟩ :=
  ⟨drawNumber_coerces_payload.1
      (runOps [Op.createRoom "h" (some "R1") (.jnum (some 1)) (.jnum (some 75)) "g"])
      "h" "R1" ⟨"R1", some "h", 1, 75, [], []⟩ (.jstr "17") 17 (by decide) rfl (by decide),
   drawNumber_coerces_payload.2.1
      (runOps [Op.createRoom "h" (some "R1") (.jnum (some 1)) (.jnum (some 75)) "g"])
      "h" "R1" ⟨"R1", some "h", 1, 75, [], []⟩ (.jstr "seventeen") (by decide) rfl (by decide)⟩

theorem name_not_in_onlineNames (room : Room) (k name2 : String) (p2 : Player)
    (hp2 : p2.socketId = none)
    (hothers : ∀ kp ∈ room.players, kp.2.name ≠ name2) :
    name2 ∉ onlineNames { room with players := alistSet room.players k p2 } := by
  intro hmem
  unfold onlineNames at hmem
  simp only [List.mem_map] at hmem
  obtain ⟨kp, hkpf, hname⟩ := hmem
  rw [List.mem_filter] at hkpf
  obtain ⟨hkpm, honline⟩ := hkpf
  rcases mem_alistSet _ _ _ _ hkpm with hcase | hcase
  · rw [hcase] at honline
    simp [hp2] at honline
  · exact hothers kp hcase hname

/-- C10: a second connection joining with a secret key that is currently
bound to a live connection silently rebinds the shared Player record to
itself; when the first connection later disconnects, the record's
connection is nulled anyway, so the player — whose second connection is
still live — is reported offline: the players-update pushed to the host
omits them. -/
theorem joinRoom_key_steal_stale_disconnect
    (s : ServerState) (sid1 sid2 rid k name2 h : String) (room : Room)
    (p : Player) (kr : Nat)
    (hroom : alistLookup s.rooms rid = some room)
    (hhost : room.hostSocketId = some h)
    (hp : alistLookup room.players k = some p)
    (_hlive : p.socketId = some sid1)
    (hsd1 : getSocketData s sid1 = ⟨some Role.player, some rid, some k⟩)
    (hsid : sid1 ≠ sid2)
    (hne : rid ≠ "")
    (htrimk : jsTrim k = k) (hnek : k ≠ "")
    (hname : jsTrim name2 ≠ "")
    (hothers : ∀ kp ∈ room.players, kp.2.name ≠ name2) :
    alistLookup (playerJoinRoom s sid2 rid name2 (some k) kr).state.rooms rid =
      some { room with players := alistSet room.players k { p with name := name2, socketId := some sid2 } } ∧
    (handleDisconnect (playerJoinRoom s sid2 rid name2 (some k) kr).state sid1).state.rooms =
      alistSet s.rooms rid { room with players := alistSet room.players k { p with name := name2, socketId := none } } ∧
    (handleDisconnect (playerJoinRoom s sid2 rid name2 (some k) kr).state sid1).emits =
      [Emit.playersUpdate h
        (onlineNames { room with players := alistSet room.players k { p with name := name2, socketId := none } })] ∧
    name2 ∉
      onlineNames { room with players := alistSet room.players k { p with name := name2, socketId := none } } := by
  have hk : resolveKey (some k) kr = k := by
    simp [resolveKey, htrimk, hnek]
  have hp' : alistLookup room.players (resolveKey (some k) kr) = some p := by
    rw [hk]; exact hp
  have hj := playerJoinRoom_found s sid2 rid name2 (some k) kr room p hroom hname hp'
  rw [hj]
  simp only [hk]
  have hsid' : ¬ sid2 = sid1 := fun hh => hsid hh.symm
  have hgsd : getSocketData
      (⟨alistSet s.rooms rid { room with players := alistSet room.players k { p with name := name2, socketId := some sid2 } },
        alistSet s.sockets sid2 ⟨some Role.player, some rid, some k⟩⟩ : ServerState) sid1 =
      ⟨some Role.player, some rid, some k⟩ := by
    rw [getSocketData, show (⟨alistSet s.rooms rid { room with players := alistSet room.players k { p with name := name2, socketId := some sid2 } }, alistSet s.sockets sid2 ⟨some Role.player, some rid, some k⟩⟩ : ServerState).sockets = alistSet s.sockets sid2 ⟨some Role.player, some rid, some k⟩ from rfl, alistLookup_set, if_neg hsid']
    rw [getSocketData] at hsd1
    exact hsd1
  have hd := handleDisconnect_player
    (⟨alistSet s.rooms rid { room with players := alistSet room.players k { p with name := name2, socketId := some sid2 } },
      alistSet s.sockets sid2 ⟨some Role.player, some rid, some k⟩⟩ : ServerState)
    sid1 rid k
    { room with players := alistSet room.players k { p with name := name2, socketId := some sid2 } }
    { p with name := name2, socketId := some sid2 }
    (by rw [hgsd]) (by rw [hgsd]) hne (by rw [hgsd])
    (by simp [alistLookup_set])
    (by simp only []; rw [alistLookup_set, if_pos rfl])
  rw [hd]
  simp only [alistSet_alistSet]
  refine ⟨by simp [alistLookup_set], trivial, ?_, ?_⟩
  · rw [emitPlayersUpdate]
    rw [show (⟨alistSet s.rooms rid { room with players := alistSet room.players k { p with name := name2, socketId := none } }, alistSet s.sockets sid2 ⟨some Role.player, some rid, some k⟩⟩ : ServerState).rooms = alistSet s.rooms rid { room with players := alistSet room.players k { p with name := name2, socketId := none } } from rfl, alistLookup_set, if_pos rfl]
    simp only []
    rw [show ({ room with players := alistSet room.players k { p with name := name2, socketId := none } } : Room).hostSocketId = room.hostSocketId from rfl, hhost]
  · exact name_not_in_onlineNames room k name2 _ rfl hothers

theorem joinRoom_key_steal_stale_disconnect_witness :
    alistLookup (playerJoinRoom
        (runOps [Op.createRoom "h" (some "R1") (.jnum (some 1)) (.jnum (some 75)) "g",
                 Op.joinRoom "p1" "R1" "Alice" (some "K7") 0])
        "p2" "R1" "AliceNew" (some "K7") 5).state.rooms "R1" =
      some ⟨"R1", some "h", 1, 75, [], [("K7", ⟨"AliceNew", "K7", some "p2", none⟩)]⟩ ∧
    (handleDisconnect (playerJoinRoom
        (runOps [Op.createRoom "h" (some "R1") (.jnum (some 1)) (.jnum (some 75)) "g",
                 Op.joinRoom "p1" "R1" "Alice" (some "K7") 0])
        "p2" "R1" "AliceNew" (some "K7") 5).state "p1").state.rooms =
      [("R1", ⟨"R1", some "h", 1, 75, [], [("K7", ⟨"AliceNew", "K7", none, none⟩)]⟩)] ∧
    (handleDisconnect (playerJoinRoom
        (runOps [Op.createRoom "h" (some "R1") (.jnum (some 1)) (.jnum (some 75)) "g",
                 Op.joinRoom "p1" "R1" "Alice" (some "K7") 0])
        "p2" "R1" "AliceNew" (some "K7") 5).state "p1").emits =
      [Emit.playersUpdate "h" []] ∧
    "AliceNew" ∉ ([] : List String) :=
  joinRoom_key_steal_stale_disconnect
    (runOps [Op.createRoom "h" (some "R1") (.jnum (some 1)) (.jnum (some 75)) "g",
             Op.joinRoom "p1" "R1" "Alice" (some "K7") 0])
    "p1" "p2" "R1" "K7" "AliceNew" "h"
    ⟨"R1", some "h", 1, 75, [], [("K7", ⟨"Alice", "K7", some "p1", none⟩)]⟩
    ⟨"Alice", "K7", some "p1", none⟩ 5
    (by decide) rfl (by decide) rfl (by decide) (by decide) (by decide) (by decide)
    (by decide) (by decide) (by decide)

end Bingo
